import Mathlib

/-!
Verification of the Gmail MCP server's response-shaping core
(`src/gmail_mcp.py`), shallowly embedded in Lean 4.

JSON payloads are modelled by the inductive `Json`; Python dict access,
truthiness, string coercion and the relevant standard-library routines
(base64url, UTF-8 decode with `errors="ignore"`, `json.dumps(indent=2)`)
are modelled by executable Lean functions.  Fallible Python code (dict
indexing, iteration over non-lists, provider HTTP errors) is modelled in
an `Except PyErr` monad; the tool-boundary `try/except` blocks become a
total match on that monad's result.
-/

/-- A parsed JSON value, as produced by `response.json()` in the source.
Numbers are modelled as integers (the Gmail payload fields used by the
code are integral). -/
inductive Json where
  | null : Json
  | bool : Bool → Json
  | num : Int → Json
  | str : String → Json
  | arr : List Json → Json
  | obj : List (String × Json) → Json

/-- Python truthiness (`if x:`) of a JSON value: `None`, `False`, `0`,
`""`, `[]` and `{}` are falsy, everything else is truthy. -/
def Json.truthy : Json → Bool
  | Json.null => false
  | Json.bool b => b
  | Json.num n => n != 0
  | Json.str s => s != ""
  | Json.arr xs => !xs.isEmpty
  | Json.obj fs => !fs.isEmpty

/-- `d.get(k)` on a parsed JSON object: `none` models Python's `None`
default.  On a non-object value Python would raise `AttributeError`; the
code never does that on the modelled paths, and we return `none`. -/
def jGet : Json → String → Option Json
  | Json.obj fields, k => (fields.find? (fun p => p.1 == k)).map (fun p => p.2)
  | _, _ => none

/-- `d.get(k, default)`. -/
def jGetD (j : Json) (k : String) (d : Json) : Json :=
  (jGet j k).getD d

/-- `CHARACTER_LIMIT = 25000`, the response-size ceiling. -/
def CHARACTER_LIMIT : Nat := 25000

/-- `truncate_response(content, metadata=None)`: return `content`
unchanged when within the limit, otherwise the first `CHARACTER_LIMIT`
characters followed by a truncation notice whose guidance sentence is
chosen by the truthiness of `metadata`. -/
def truncate_response (content : String) (metadata : Option Json := none) : String :=
  if content.length ≤ CHARACTER_LIMIT then content
  else
    let truncated := content.take CHARACTER_LIMIT
    let truncation_msg := "\n\n[Response truncated at " ++ toString CHARACTER_LIMIT ++ " characters. "
    let truncation_msg := truncation_msg ++
      (if (metadata.map Json.truthy).getD false then
        "Use filters or pagination to refine results.]"
      else
        "Original content was longer.]")
    truncated ++ truncation_msg

lemma truncate_response_of_le {content : String} (metadata : Option Json)
    (h : content.length ≤ CHARACTER_LIMIT) :
    truncate_response content metadata = content := by
  simp [truncate_response, h]

lemma truncate_response_of_gt {content : String} (metadata : Option Json)
    (h : CHARACTER_LIMIT < content.length) :
    truncate_response content metadata = content.take CHARACTER_LIMIT ++
      (if (metadata.map Json.truthy).getD false then
        "\n\n[Response truncated at 25000 characters. Use filters or pagination to refine results.]"
      else
        "\n\n[Response truncated at 25000 characters. Original content was longer.]") := by
  rw [truncate_response, if_neg (by omega)]
  cases hm : (metadata.map Json.truthy).getD false <;> simp [hm] <;> rfl

/-- C1: for any string `S` and metadata flag, `truncate_response` returns
`S` unchanged when `length S ≤ 25000`, and otherwise returns exactly the
first 25000 characters of `S` followed by one of two fixed annotation
strings chosen solely by the flag ("use filters or pagination" guidance
when the flag is set, "original content was longer" otherwise). -/
theorem truncate_response_bound_spec (S : String) (metadata : Option Json) :
    (S.length ≤ 25000 → truncate_response S metadata = S) ∧
    (25000 < S.length →
      truncate_response S metadata = S.take 25000 ++
        (if (metadata.map Json.truthy).getD false then
          "\n\n[Response truncated at 25000 characters. Use filters or pagination to refine results.]"
        else
          "\n\n[Response truncated at 25000 characters. Original content was longer.]")) := by
  constructor
  · intro h
    exact truncate_response_of_le metadata h
  · intro h
    exact truncate_response_of_gt metadata h

/-- A string of 25001 characters, exceeding the limit by one. -/
def longContent : String := String.mk (List.replicate 25001 'x')

lemma longContent_length : longContent.length = 25001 := by
  rw [longContent]
  show (List.replicate 25001 'x').length = 25001
  exact List.length_replicate _ _

/-- Witness for C1: a two-character string is returned unchanged, and a
25001-character string is truncated to its first 25000 characters plus
the pagination-guidance annotation (the metadata dict is non-empty, hence
truthy). -/
theorem truncate_response_bound_spec_witness :
    (("hi" : String).length ≤ 25000 ∧ truncate_response "hi" none = "hi") ∧
    (25000 < longContent.length ∧
      truncate_response longContent (some (Json.obj [("next_page_token", Json.null)])) =
        longContent.take 25000 ++
          "\n\n[Response truncated at 25000 characters. Use filters or pagination to refine results.]") := by
  refine ⟨⟨by decide, (truncate_response_bound_spec "hi" none).1 (by decide)⟩, ?_, ?_⟩
  · rw [longContent_length]; omega
  · have h := (truncate_response_bound_spec longContent
      (some (Json.obj [("next_page_token", Json.null)]))).2 (by rw [longContent_length]; omega)
    simpa using h

/-- C2: on strings already within the limit, `truncate_response` is
idempotent — a second application (with any metadata) changes nothing. -/
theorem truncate_response_idempotent (S : String) (m m' : Option Json)
    (h : S.length ≤ 25000) :
    truncate_response (truncate_response S m) m' = truncate_response S m := by
  rw [truncate_response_of_le m h, truncate_response_of_le m' h]

/-- Witness for C2. -/
theorem truncate_response_idempotent_witness :
    ("ok" : String).length ≤ 25000 ∧
    truncate_response (truncate_response "ok" none) (some (Json.obj [])) =
      truncate_response "ok" none :=
  ⟨by decide, truncate_response_idempotent "ok" none (some (Json.obj [])) (by decide)⟩

/-! ### Standard-library routines used by the source

Models of `str.join`, `base64.urlsafe_b64decode` / `urlsafe_b64encode`,
`bytes.decode("utf-8", errors="ignore")` and `str.encode("utf-8")`. -/

/-- Python `sep.join(xs)`. -/
def joinSep (sep : String) : List String → String
  | [] => ""
  | [x] => x
  | x :: y :: rest => x ++ sep ++ joinSep sep (y :: rest)

/-- Value of one base64 alphabet character.  `urlsafe_b64decode` first
maps `-`/`_` to `+`/`/`, so both alphabets are accepted; characters
outside the alphabet are discarded by the decoder. -/
def b64Val (c : Char) : Option Nat :=
  if 'A' ≤ c ∧ c ≤ 'Z' then some (c.toNat - 65)
  else if 'a' ≤ c ∧ c ≤ 'z' then some (c.toNat - 71)
  else if '0' ≤ c ∧ c ≤ '9' then some (c.toNat + 4)
  else if c = '-' ∨ c = '+' then some 62
  else if c = '_' ∨ c = '/' then some 63
  else none

/-- `base64.urlsafe_b64decode`: collect the 6-bit values of the alphabet
characters, pack them into a bit stream and read it back as bytes
(dropping the trailing partial byte, which is how `=` padding ends up
being handled). -/
def b64urlDecodeBytes (s : String) : List Nat :=
  let vs := s.data.filterMap b64Val
  let nbits := 6 * vs.length
  let nbytes := nbits / 8
  let acc := (vs.foldl (fun a v => a * 64 + v) 0) / 2 ^ (nbits % 8)
  (List.range nbytes).map (fun i => acc / 2 ^ (8 * (nbytes - 1 - i)) % 256)

/-- Is `b2` a UTF-8 continuation byte? -/
def utf8ContOk (b2 : Nat) : Bool :=
  decide (0x80 ≤ b2) && decide (b2 ≤ 0xBF)

/-- Valid second byte for a three-byte sequence led by `b` (excludes
overlong encodings and surrogates, as CPython's decoder does). -/
def utf8Lead3Ok (b b2 : Nat) : Bool :=
  (b == 0xE0 && decide (0xA0 ≤ b2) && decide (b2 ≤ 0xBF)) ||
  (decide (0xE1 ≤ b) && decide (b ≤ 0xEC) && utf8ContOk b2) ||
  (b == 0xED && decide (0x80 ≤ b2) && decide (b2 ≤ 0x9F)) ||
  (decide (0xEE ≤ b) && decide (b ≤ 0xEF) && utf8ContOk b2)

/-- Valid second byte for a four-byte sequence led by `b`. -/
def utf8Lead4Ok (b b2 : Nat) : Bool :=
  (b == 0xF0 && decide (0x90 ≤ b2) && decide (b2 ≤ 0xBF)) ||
  (decide (0xF1 ≤ b) && decide (b ≤ 0xF3) && utf8ContOk b2) ||
  (b == 0xF4 && decide (0x80 ≤ b2) && decide (b2 ≤ 0x8F))

/-- `bytes.decode("utf-8", errors="ignore")`: decode well-formed
sequences and skip ill-formed ones (skipping the maximal ill-formed
prefix, as CPython does). -/
def utf8DecodeIgnore : List Nat → List Char
  | [] => []
  | b :: rest =>
    if b < 0x80 then Char.ofNat b :: utf8DecodeIgnore rest
    else if 0xC2 ≤ b ∧ b ≤ 0xDF then
      match rest with
      | [] => []
      | b2 :: r2 =>
        if utf8ContOk b2 then
          Char.ofNat ((b - 0xC0) * 64 + (b2 - 0x80)) :: utf8DecodeIgnore r2
        else utf8DecodeIgnore (b2 :: r2)
    else if 0xE0 ≤ b ∧ b ≤ 0xEF then
      match rest with
      | [] => []
      | b2 :: r2 =>
        if utf8Lead3Ok b b2 then
          match r2 with
          | [] => []
          | b3 :: r3 =>
            if utf8ContOk b3 then
              Char.ofNat ((b - 0xE0) * 4096 + (b2 - 0x80) * 64 + (b3 - 0x80)) ::
                utf8DecodeIgnore r3
            else utf8DecodeIgnore (b3 :: r3)
        else utf8DecodeIgnore (b2 :: r2)
    else if 0xF0 ≤ b ∧ b ≤ 0xF4 then
      match rest with
      | [] => []
      | b2 :: r2 =>
        if utf8Lead4Ok b b2 then
          match r2 with
          | [] => []
          | b3 :: r3 =>
            if utf8ContOk b3 then
              match r3 with
              | [] => []
              | b4 :: r4 =>
                if utf8ContOk b4 then
                  Char.ofNat ((b - 0xF0) * 262144 + (b2 - 0x80) * 4096 +
                      (b3 - 0x80) * 64 + (b4 - 0x80)) :: utf8DecodeIgnore r4
                else utf8DecodeIgnore (b4 :: r4)
            else utf8DecodeIgnore (b3 :: r3)
        else utf8DecodeIgnore (b2 :: r2)
    else utf8DecodeIgnore rest

/-- `data.decode("utf-8", errors="ignore")` as a `String`. -/
def utf8DecodeIgnoreStr (bs : List Nat) : String :=
  String.mk (utf8DecodeIgnore bs)

/-- UTF-8 bytes of one character (`str.encode("utf-8")`). -/
def utf8EncodeChar (c : Char) : List Nat :=
  let n := c.toNat
  if n < 0x80 then [n]
  else if n < 0x800 then [0xC0 + n / 64, 0x80 + n % 64]
  else if n < 0x10000 then [0xE0 + n / 4096, 0x80 + n / 64 % 64, 0x80 + n % 64]
  else [0xF0 + n / 262144, 0x80 + n / 4096 % 64, 0x80 + n / 64 % 64, 0x80 + n % 64]

/-- `str.encode("utf-8")`. -/
def utf8Encode (s : String) : List Nat :=
  (s.data.map utf8EncodeChar).flatten

/-- Character of one 6-bit value in the url-safe base64 alphabet. -/
def b64Char (n : Nat) : Char :=
  if n < 26 then Char.ofNat (65 + n)
  else if n < 52 then Char.ofNat (97 + n - 26)
  else if n < 62 then Char.ofNat (48 + n - 52)
  else if n = 62 then '-'
  else '_'

/-- `base64.urlsafe_b64encode` on a byte list, producing the padded
character stream. -/
def b64EncodeChars : List Nat → List Char
  | [] => []
  | [b1] => [b64Char (b1 / 4), b64Char (b1 % 4 * 16), '=', '=']
  | [b1, b2] => [b64Char (b1 / 4), b64Char (b1 % 4 * 16 + b2 / 16), b64Char (b2 % 16 * 4), '=']
  | b1 :: b2 :: b3 :: rest =>
    b64Char (b1 / 4) :: b64Char (b1 % 4 * 16 + b2 / 16) ::
      b64Char (b2 % 16 * 4 + b3 / 64) :: b64Char (b3 % 64) :: b64EncodeChars rest

/-- `base64.urlsafe_b64encode(...).decode("utf-8")` as used when sending
mail: bytes in, base64url string out. -/
def b64urlEncode (bs : List Nat) : String :=
  String.mk (b64EncodeChars bs)

/-! ### `json.dumps(..., indent=2)` and Python string coercion -/

/-- Lower-case hex digit. -/
def hexDigit (d : Nat) : Char :=
  if d < 10 then Char.ofNat (48 + d) else Char.ofNat (87 + d)

/-- Four lower-case hex digits. -/
def hex4 (n : Nat) : String :=
  String.mk [hexDigit (n / 4096 % 16), hexDigit (n / 256 % 16), hexDigit (n / 16 % 16), hexDigit (n % 16)]

/-- `\uXXXX` escape (with a surrogate pair above the BMP), as produced by
`json.dumps` with its default `ensure_ascii=True`. -/
def jsonUEscape (n : Nat) : String :=
  if n < 0x10000 then "\\u" ++ hex4 n
  else "\\u" ++ hex4 (0xD800 + (n - 0x10000) / 0x400) ++ "\\u" ++ hex4 (0xDC00 + (n - 0x10000) % 0x400)

/-- JSON escaping of one character. -/
def jsonEscapeChar (c : Char) : String :=
  if c = '"' then "\\\""
  else if c = '\\' then "\\\\"
  else if c = '\n' then "\\n"
  else if c = '\t' then "\\t"
  else if c = '\r' then "\\r"
  else if c = Char.ofNat 8 then "\\b"
  else if c = Char.ofNat 12 then "\\f"
  else if c.toNat < 32 ∨ c.toNat > 126 then jsonUEscape c.toNat
  else String.singleton c

/-- A JSON string literal. -/
def jsonQuote (s : String) : String :=
  "\"" ++ String.join (s.data.map jsonEscapeChar) ++ "\""

/-- `lvl` levels of two-space indentation. -/
def indentSpaces (lvl : Nat) : String :=
  String.mk (List.replicate (2 * lvl) ' ')

mutual

/-- `json.dumps(j, indent=2)` at indentation level `lvl`. -/
def jsonDumpsAux : Json → Nat → String
  | Json.null, _ => "null"
  | Json.bool b, _ => if b then "true" else "false"
  | Json.num n, _ => toString n
  | Json.str s, _ => jsonQuote s
  | Json.arr [], _ => "[]"
  | Json.arr (x :: xs), lvl =>
    "[\n" ++ joinSep ",\n" (jsonDumpsItems (x :: xs) (lvl + 1)) ++ "\n" ++ indentSpaces lvl ++ "]"
  | Json.obj [], _ => "\x7b\x7d"
  | Json.obj (f :: fs), lvl =>
    "\x7b\n" ++ joinSep ",\n" (jsonDumpsFields (f :: fs) (lvl + 1)) ++ "\n" ++ indentSpaces lvl ++ "\x7d"

/-- Rendered array items, one per line. -/
def jsonDumpsItems : List Json → Nat → List String
  | [], _ => []
  | x :: xs, lvl => (indentSpaces lvl ++ jsonDumpsAux x lvl) :: jsonDumpsItems xs lvl

/-- Rendered object fields, one per line. -/
def jsonDumpsFields : List (String × Json) → Nat → List String
  | [], _ => []
  | (k, v) :: fs, lvl => (indentSpaces lvl ++ jsonQuote k ++ ": " ++ jsonDumpsAux v lvl) :: jsonDumpsFields fs lvl

end

/-- `json.dumps(j, indent=2)`. -/
def jsonDumps (j : Json) : String :=
  jsonDumpsAux j 0

/-- Python `str()` of a JSON value, as applied inside f-strings.  The
modelled code only ever interpolates scalars; containers fall back to the
JSON rendering (Python's `repr` differs in quoting, but no modelled path
reaches that case). -/
def pyStr : Json → String
  | Json.str s => s
  | Json.num n => toString n
  | Json.bool b => if b then "True" else "False"
  | Json.null => "None"
  | j => jsonDumpsAux j 0

/-- `str()` of an optional value (`None` prints as `"None"`). -/
def pyStrOpt : Option Json → String
  | none => "None"
  | some j => pyStr j

/-! ### Failure model

Exceptions that can cross function boundaries inside a tool body:
`httpx.HTTPStatusError` (re-raised by `make_gmail_request` on a non-2xx
provider status) and everything else (`KeyError`, `TypeError`, transport
errors, ...), which the tools catch as `Exception`.  Each carries its
`str()` rendering. -/
inductive PyErr where
  | httpStatusError : String → PyErr
  | otherError : String → PyErr

/-- Python `d[k]`: raises `KeyError` when the key is absent. -/
def jIndex (j : Json) (k : String) : Except PyErr Json :=
  match jGet j k with
  | some v => Except.ok v
  | none => Except.error (PyErr.otherError ("'" ++ k ++ "'"))

/-- Iterating a JSON value as a Python list; anything else raises
`TypeError`. -/
def asArr : Json → Except PyErr (List Json)
  | Json.arr xs => Except.ok xs
  | _ => Except.error (PyErr.otherError "object is not iterable")

/-! ### The header dictionary

`headers = {h["name"]: h["value"] for h in message.get("payload", {}).get("headers", [])}`
used by both renderers.  A Python dict comprehension binds a duplicated
key to its **last** occurrence; we model the dict by its lookup
function. -/

/-- The header dict built by the comprehension, as a lookup function:
each pair is inserted in order, later insertions overwriting earlier
ones. -/
def headersDict (pairs : List (String × Json)) : String → Option Json :=
  pairs.foldl (fun d p k => if k == p.1 then some p.2 else d k) (fun _ => none)

/-- The ordered raw header pairs of a message payload: `h["name"]` /
`h["value"]` for each entry of `payload.headers`, raising `KeyError` when
a field is missing.  Names are coerced with `str()` (header names are
strings in every Gmail payload). -/
def rawHeaderPairs (message : Json) : Except PyErr (List (String × Json)) := do
  let hs ← asArr (jGetD (jGetD message "payload" (Json.obj [])) "headers" (Json.arr []))
  hs.mapM (fun h => do
    let n ← jIndex h "name"
    let v ← jIndex h "value"
    pure (pyStr n, v))

/-! ### `extract_email_body` -/

/-- `part.get("body", {}).get("data")`. -/
def bodyData (part : Json) : Option Json :=
  jGet (jGetD part "body" (Json.obj [])) "data"

/-- `base64.urlsafe_b64decode(data).decode("utf-8", errors="ignore")`.
Body data is always a base64url string in Gmail payloads; a non-string
value would raise `TypeError` in Python and is not modelled. -/
def decodeData : Json → String
  | Json.str s => utf8DecodeIgnoreStr (b64urlDecodeBytes s)
  | _ => ""

/-- `part.get("mimeType") == "text/plain"`. -/
def isPlainPart (part : Json) : Bool :=
  match jGet part "mimeType" with
  | some (Json.str s) => s == "text/plain"
  | _ => false

/-- The `for part in payload["parts"]` loop of `extract_email_body`:
return the decoded data of the first `text/plain` part carrying truthy
inline data, continuing past parts without data. -/
def findPlainBody : List Json → Option String
  | [] => none
  | part :: rest =>
    if isPlainPart part then
      match bodyData part with
      | some d => if d.truthy then some (decodeData d) else findPlainBody rest
      | none => findPlainBody rest
    else findPlainBody rest

/-- `extract_email_body(message)`: try the immediate child parts, then
the top-level body data, else the empty string.  A `"parts"` key holding
a non-list would raise `TypeError` in Python and is not modelled. -/
def extract_email_body (message : Json) : String :=
  let payload := jGetD message "payload" (Json.obj [])
  let fromParts :=
    match jGet payload "parts" with
    | some (Json.arr parts) => findPlainBody parts
    | _ => none
  match fromParts with
  | some s => s
  | none =>
    match bodyData payload with
    | some d => if d.truthy then decodeData d else ""
    | none => ""

/-- Spec-side selector: is this an immediate child the body loop accepts
(`text/plain` with truthy inline data)? -/
def isPlainWithData (part : Json) : Bool :=
  isPlainPart part && ((bodyData part).map Json.truthy).getD false

/-- Spec-side selector: the inline data of the first acceptable
`text/plain` child. -/
def firstPlainData (parts : List Json) : Option Json :=
  (parts.find? isPlainWithData).bind bodyData

/-! ### `extract_attachments_info` -/

/-- The `attachments.append({...})` record built for one filenamed part. -/
structure AttachmentInfo where
  filename : Json
  mime_type : Option Json
  size : Json
  attachment_id : Option Json

/-- `if part.get("filename"):` — a part is recorded iff its filename is
truthy (a non-empty string in every Gmail payload). -/
def isAttachment (part : Json) : Bool :=
  ((jGet part "filename").map Json.truthy).getD false

/-- The record appended for an accepted part. -/
def attachmentInfoOf (part : Json) : AttachmentInfo :=
  { filename := (jGet part "filename").getD Json.null
    mime_type := jGet part "mimeType"
    size := jGetD (jGetD part "body" (Json.obj [])) "size" (Json.num 0)
    attachment_id := jGet (jGetD part "body" (Json.obj [])) "attachmentId" }

/-- The child parts a part recurses into: `part["parts"]` when the key is
present (a non-list would raise `TypeError` in Python and is not
modelled), else nothing. -/
def childParts (part : Json) : List Json :=
  match jGet part "parts" with
  | some (Json.arr ps) => ps
  | _ => []

lemma sizeOf_childParts_le (part : Json) : sizeOf (childParts part) ≤ sizeOf part := by
  rw [childParts]
  split
  · rename_i ps heq
    cases part with
    | obj fields =>
      simp only [jGet] at heq
      obtain ⟨pr, hfind, hsnd⟩ :
          ∃ pr, fields.find? (fun p => p.1 == "parts") = some pr ∧ pr.2 = Json.arr ps := by
        cases hfind : fields.find? (fun p => p.1 == "parts") with
        | none => rw [hfind] at heq; simp at heq
        | some pr => rw [hfind] at heq; simp at heq; exact ⟨pr, rfl, heq⟩
      obtain ⟨a, b⟩ := pr
      simp only at hsnd
      subst hsnd
      have h1 : sizeOf ((a, Json.arr ps) : String × Json) < sizeOf fields :=
        List.sizeOf_lt_of_mem (List.mem_of_find?_eq_some hfind)
      simp at h1 ⊢
      omega
    | null => simp [jGet] at heq
    | bool b => simp [jGet] at heq
    | num n => simp [jGet] at heq
    | str s => simp [jGet] at heq
    | arr xs => simp [jGet] at heq
  · cases part <;> simp

/-- The recursive `process_part` walk of `extract_attachments_info`,
acting on a worklist: record the part when it has a truthy filename, then
descend into its child parts, then continue with the remaining parts. -/
def process_parts : List Json → List AttachmentInfo
  | [] => []
  | p :: ps =>
    (if isAttachment p then [attachmentInfoOf p] else []) ++
      (process_parts (childParts p) ++ process_parts ps)
termination_by l => sizeOf l
decreasing_by
  all_goals simp
  all_goals (have h := sizeOf_childParts_le ‹Json›; omega)

/-- `extract_attachments_info(message)`: walk the payload's immediate
parts. -/
def extract_attachments_info (message : Json) : List AttachmentInfo :=
  process_parts (childParts (jGetD message "payload" (Json.obj [])))

/-- Spec-side depth-first pre-order enumeration of a part forest. -/
def preorderList : List Json → List Json
  | [] => []
  | p :: ps => p :: (preorderList (childParts p) ++ preorderList ps)
termination_by l => sizeOf l
decreasing_by
  all_goals simp
  all_goals (have h := sizeOf_childParts_le ‹Json›; omega)

/-! ### `gmail_send_message`: outbound request construction -/

/-- Validated input of the send tool (`SendEmailInput`). -/
structure SendEmailInput where
  «to» : String
  subject : String
  body : String
  cc : Option String := none
  bcc : Option String := none
  thread_id : Option String := none

/-- Python truthiness of an `Optional[str]` (`if params.cc:` etc.):
`None` and the empty string are falsy. -/
def optStrTruthy : Option String → Bool
  | none => false
  | some s => s != ""

/-- The `message_lines` list: `To`, `Subject`, optional `Cc`/`Bcc`, a
blank line, then the body. -/
def message_lines (p : SendEmailInput) : List String :=
  ["To: " ++ p.«to», "Subject: " ++ p.subject] ++
    (match p.cc with
     | some c => if c != "" then ["Cc: " ++ c] else []
     | none => []) ++
    (match p.bcc with
     | some b => if b != "" then ["Bcc: " ++ b] else []
     | none => []) ++
    ["", p.body]

/-- `base64.urlsafe_b64encode(raw_message.encode("utf-8")).decode("utf-8")`
where `raw_message = "\n".join(message_lines)`. -/
def encoded_message (p : SendEmailInput) : String :=
  b64urlEncode (utf8Encode (joinSep "\n" (message_lines p)))

/-- The JSON request body sent to `/users/me/messages/send`: `raw`, plus
`threadId` when `params.thread_id` is truthy. -/
def gmail_send_request_body (p : SendEmailInput) : Json :=
  Json.obj (("raw", Json.str (encoded_message p)) ::
    (match p.thread_id with
     | some t => if t != "" then [("threadId", Json.str t)] else []
     | none => []))

/-! ### `download_attachment_text`: text extraction dispatch -/

/-- Outcome of an external parsing capability (PyPDF2 / python-docx):
the library may be missing (`ImportError`), fail (`Exception`, carrying
its `str()`), or produce text.  This models the `try/except` around the
library calls in `download_attachment_text`. -/
inductive CapResult where
  | unavailable : CapResult
  | err : String → CapResult
  | ok : String → CapResult

/-- The extraction dispatch of `download_attachment_text` (lines 254-287
of `gmail_mcp.py`), acting on the already-downloaded attachment bytes.
The preceding network fetch and base64 decode raise to the tool boundary
on failure and are outside this component. -/
def download_attachment_text (attachment_data : List Nat) (mime_type : String)
    (pdf docx : CapResult) : String :=
  if mime_type = "text/plain" then
    utf8DecodeIgnoreStr attachment_data
  else if mime_type = "application/pdf" then
    match pdf with
    | CapResult.ok text => text
    | CapResult.unavailable => "[PDF text extraction requires PyPDF2 library]"
    | CapResult.err e => "[Error extracting PDF text: " ++ e ++ "]"
  else if mime_type = "application/vnd.openxmlformats-officedocument.wordprocessingml.document"
      ∨ mime_type = "application/msword" then
    match docx with
    | CapResult.ok text => text
    | CapResult.unavailable => "[DOCX text extraction requires python-docx library]"
    | CapResult.err e => "[Error extracting DOCX text: " ++ e ++ "]"
  else
    "[Unsupported file type: " ++ mime_type ++ "]"

/-! ### Tool dispatch: `gmail_search_messages` and `gmail_get_message`

`make_gmail_request` is abstracted as an oracle from the endpoint to
either a parsed JSON response or a raised error (`httpx.HTTPStatusError`
for non-2xx statuses, anything else for transport and decoding
failures). -/

/-- `ResponseFormat`. -/
inductive ResponseFormat where
  | markdown : ResponseFormat
  | json : ResponseFormat
deriving DecidableEq

/-- Validated input of the search tool (`GmailSearchInput`). -/
structure GmailSearchInput where
  query : String
  max_results : Nat := 20
  page_token : Option String := none
  response_format : ResponseFormat := ResponseFormat.markdown

/-- Validated input of the get-message tool (`GetEmailInput`). -/
structure GetEmailInput where
  message_id : String
  response_format : ResponseFormat := ResponseFormat.markdown
  include_attachments_info : Bool := true

/-- The single-quote character (used by the pagination hint). -/
def singleQuote : String := String.singleton (Char.ofNat 39)

/-- Elements of a JSON array when iterated for joining (`labelIds` is a
list of strings in every Gmail payload; a non-list raises in Python and
is not modelled). -/
def asArrD : Json → List Json
  | Json.arr xs => xs
  | _ => []

/-- `format_email_markdown(message, include_body=True)`.  Header lookups
fall back to the documented defaults; `message["id"]` raises `KeyError`
when absent. -/
def format_email_markdown (message : Json) (include_body : Bool) : Except PyErr String := do
  let pairs ← rawHeaderPairs message
  let headers := headersDict pairs
  let id ← jIndex message "id"
  let labels := asArrD (jGetD message "labelIds" (Json.arr []))
  pure ("# Email: " ++ pyStr ((headers "Subject").getD (Json.str "(No Subject)")) ++ "\n\n" ++
    "**From:** " ++ pyStr ((headers "From").getD (Json.str "Unknown")) ++ "\n" ++
    "**To:** " ++ pyStr ((headers "To").getD (Json.str "Unknown")) ++ "\n" ++
    (if ((headers "Cc").map Json.truthy).getD false then
      "**Cc:** " ++ pyStrOpt (headers "Cc") ++ "\n"
    else "") ++
    "**Date:** " ++ pyStr ((headers "Date").getD (Json.str "Unknown")) ++ "\n" ++
    "**Message ID:** " ++ pyStr id ++ "\n" ++
    (if !labels.isEmpty then "**Labels:** " ++ joinSep ", " (labels.map pyStr) ++ "\n" else "") ++
    (if include_body then
      "\n## Body\n\n" ++
        (let body := extract_email_body message
         if body != "" then body else "(No body content)")
    else ""))

/-- `format_email_json(message)`. -/
def format_email_json (message : Json) : Except PyErr Json := do
  let pairs ← rawHeaderPairs message
  let headers := headersDict pairs
  let id ← jIndex message "id"
  pure (Json.obj [
    ("id", id),
    ("thread_id", (jGet message "threadId").getD Json.null),
    ("subject", (headers "Subject").getD (Json.str "(No Subject)")),
    ("from", (headers "From").getD (Json.str "Unknown")),
    ("to", (headers "To").getD (Json.str "Unknown")),
    ("cc", (headers "Cc").getD Json.null),
    ("date", (headers "Date").getD (Json.str "Unknown")),
    ("timestamp", (jGet message "internalDate").getD Json.null),
    ("labels", jGetD message "labelIds" (Json.arr [])),
    ("snippet", (jGet message "snippet").getD Json.null),
    ("body", Json.str (extract_email_body message))
  ])

/-- The markdown summary block the search loop appends for one detailed
message. -/
def searchResultEntry (i : Nat) (msg : Json) : Except PyErr String := do
  let pairs ← rawHeaderPairs msg
  let headers := headersDict pairs
  let id ← jIndex msg "id"
  let attachments := extract_attachments_info msg
  pure ("## " ++ toString i ++ ". " ++ pyStr ((headers "Subject").getD (Json.str "(No Subject)")) ++ "\n" ++
    "- **From:** " ++ pyStr ((headers "From").getD (Json.str "Unknown")) ++ "\n" ++
    "- **Date:** " ++ pyStr ((headers "Date").getD (Json.str "Unknown")) ++ "\n" ++
    "- **Message ID:** " ++ pyStr id ++ "\n" ++
    "- **Snippet:** " ++ pyStr (jGetD msg "snippet" (Json.str "")) ++ "\n" ++
    (if !attachments.isEmpty then
      "- **Attachments:** " ++ joinSep ", " (attachments.map (fun a => pyStr a.filename)) ++ "\n"
    else "") ++
    "\n")

/-- The `try:` block of `gmail_search_messages`: list, short-circuit on
an empty result, fetch each message's detail, render in the requested
format, and bound the size. -/
def searchBody (params : GmailSearchInput) (oracle : String → Except PyErr Json) :
    Except PyErr String := do
  let response ← oracle "/users/me/messages"
  let messagesJ := jGetD response "messages" (Json.arr [])
  let next_page_token := jGet response "nextPageToken"
  let result_size_estimate := jGetD response "resultSizeEstimate" (Json.num 0)
  if messagesJ.truthy = false then
    return "No messages found matching the search query."
  let messages ← asArr messagesJ
  let detailed_messages ← messages.mapM (fun m => do
    let id ← jIndex m "id"
    oracle ("/users/me/messages/" ++ pyStr id))
  let result ←
    if params.response_format = ResponseFormat.markdown then do
      let entries ← detailed_messages.enum.mapM (fun im => searchResultEntry (im.1 + 1) im.2)
      pure ("# Gmail Search Results\n\n" ++
        "**Query:** `" ++ params.query ++ "`\n" ++
        "**Results:** " ++ toString messages.length ++ " of approximately " ++
          pyStr result_size_estimate ++ " total\n\n" ++
        String.join entries ++
        (if ((next_page_token.map Json.truthy).getD false) then
          "\n**More results available.** Use page_token=" ++ singleQuote ++ pyStrOpt next_page_token ++ singleQuote ++
            " to get the next page.\n"
        else ""))
    else do
      let jsonMsgs ← detailed_messages.mapM format_email_json
      pure (jsonDumps (Json.obj [
        ("query", Json.str params.query),
        ("result_count", Json.num messages.length),
        ("estimated_total", result_size_estimate),
        ("messages", Json.arr jsonMsgs),
        ("has_more", Json.bool ((next_page_token.map Json.truthy).getD false)),
        ("next_page_token", next_page_token.getD Json.null)
      ]))
  return truncate_response result (some (Json.obj [("next_page_token", next_page_token.getD Json.null)]))

/-- `gmail_search_messages`: the `try/except` boundary around
`searchBody`, converting every raised error into a diagnostic string. -/
def gmail_search_messages (params : GmailSearchInput)
    (oracle : String → Except PyErr Json) : String :=
  match searchBody params oracle with
  | Except.ok s => s
  | Except.error (PyErr.httpStatusError e) =>
    "Error searching Gmail: " ++ e ++ ". Please check your query syntax and try again."
  | Except.error (PyErr.otherError e) => "Unexpected error: " ++ e

/-- The attachments section appended by `gmail_get_message` in markdown
mode. -/
def attachmentsSection (attachments : List AttachmentInfo) : String :=
  "\n## Attachments\n\n" ++
    String.join (attachments.map (fun att =>
      "- **" ++ pyStr att.filename ++ "** (" ++ pyStrOpt att.mime_type ++ ", " ++
        pyStr att.size ++ " bytes)\n" ++
      "  - Attachment ID: " ++ pyStrOpt att.attachment_id ++ "\n"))

/-- The `try:` block of `gmail_get_message`. -/
def getMessageBody (params : GetEmailInput) (oracle : String → Except PyErr Json) :
    Except PyErr String := do
  let message ← oracle ("/users/me/messages/" ++ params.message_id)
  let result ←
    if params.response_format = ResponseFormat.markdown then do
      let r ← format_email_markdown message true
      let attachments := extract_attachments_info message
      pure (if params.include_attachments_info ∧ !attachments.isEmpty then
        r ++ attachmentsSection attachments
      else r)
    else do
      let j ← format_email_json message
      pure (jsonDumps j)
  return truncate_response result

/-- `gmail_get_message`: the `try/except` boundary around
`getMessageBody`. -/
def gmail_get_message (params : GetEmailInput)
    (oracle : String → Except PyErr Json) : String :=
  match getMessageBody params oracle with
  | Except.ok s => s
  | Except.error (PyErr.httpStatusError e) =>
    "Error retrieving message: " ++ e ++ ". Please verify the message ID is correct."
  | Except.error (PyErr.otherError e) => "Unexpected error: " ++ e

/-! ### C4: duplicate header names -/

/-- C4 counterexample: for the raw header sequence
`[("X","1"), ("X","2")]`, the header dict built by the renderers binds
`"X"` to `"2"` — the value of the **last** occurrence — so the claim
that the first occurrence wins is false. -/
theorem headers_first_occurrence_counterexample :
    ¬ (headersDict [("X", Json.str "1"), ("X", Json.str "2")] "X" = some (Json.str "1")) := by
  intro h
  have e : headersDict [("X", Json.str "1"), ("X", Json.str "2")] "X" = some (Json.str "2") := rfl
  rw [e] at h
  injection h with h1
  injection h1 with h2
  exact absurd h2 (by decide)

/-- C4 (amended): for every ordered sequence of raw header pairs, the
header dict used by the Markdown and JSON renderers binds each name to
the value of its **last** occurrence in the sequence (case-sensitive
exact key match); in particular, on duplicates the last occurrence wins. -/
theorem headers_last_occurrence_wins (pairs : List (String × Json)) (k : String) :
    headersDict pairs k = (pairs.reverse.find? (fun p => p.1 == k)).map (fun p => p.2) := by
  have key : ∀ (l : List (String × Json)) (d : String → Option Json),
      List.foldl (fun d p k => if k == p.1 then some p.2 else d k) d l k =
        match l.reverse.find? (fun p => p.1 == k) with
        | some pr => some pr.2
        | none => d k := by
    intro l
    induction l with
    | nil => intro d; simp
    | cons p rest ih =>
      intro d
      rw [List.foldl_cons, ih, List.reverse_cons, List.find?_append]
      cases hr : rest.reverse.find? (fun q => q.1 == k) with
      | some pr => simp [Option.or]
      | none =>
        by_cases hk : p.1 = k
        · simp [Option.or, hk]
        · simp [Option.or, hk, (Ne.symm hk : k ≠ p.1)]
  rw [headersDict, key]
  cases pairs.reverse.find? (fun p => p.1 == k) <;> simp

/-! ### C5: body extraction -/

lemma findPlainBody_eq (parts : List Json) :
    findPlainBody parts = (firstPlainData parts).map decodeData := by
  induction parts with
  | nil => rfl
  | cons part rest ih =>
    rw [findPlainBody]
    by_cases hp : isPlainPart part
    · cases hd : bodyData part with
      | some d =>
        cases ht : d.truthy
        · have : isPlainWithData part = false := by
            simp [isPlainWithData, hp, hd, ht]
          simp [hp, hd, ht, firstPlainData, this, ih, firstPlainData]
        · have : isPlainWithData part = true := by
            simp [isPlainWithData, hp, hd, ht]
          simp [hp, hd, ht, firstPlainData, this]
      | none =>
        have : isPlainWithData part = false := by
          simp [isPlainWithData, hp, hd]
        simp [hp, hd, firstPlainData, this, ih, firstPlainData]
    · have : isPlainWithData part = false := by
        simp [isPlainWithData, hp]
      simp [hp, firstPlainData, this, ih, firstPlainData]

/-- C5: for a message whose payload carries immediate child parts, body
extraction returns the decoded inline data of the first `text/plain`
child with truthy inline data whenever one exists — regardless of any
top-level body data; when no such child exists it falls back to the
top-level inline data when that is truthy, and otherwise returns the
empty string rather than failing. -/
theorem extract_email_body_prefers_plain_child (message payload : Json) (parts : List Json)
    (hpl : jGetD message "payload" (Json.obj []) = payload)
    (hparts : jGet payload "parts" = some (Json.arr parts)) :
    (∀ d, firstPlainData parts = some d →
      extract_email_body message = decodeData d) ∧
    (firstPlainData parts = none →
      ∀ d, bodyData payload = some d → d.truthy = true →
        extract_email_body message = decodeData d) ∧
    (firstPlainData parts = none →
      (∀ d, bodyData payload = some d → d.truthy = false) →
        extract_email_body message = "") := by
  have hbody : extract_email_body message =
      match findPlainBody parts with
      | some s => s
      | none =>
        match bodyData payload with
        | some d => if d.truthy then decodeData d else ""
        | none => "" := by
    rw [extract_email_body, hpl, hparts]
  refine ⟨?_, ?_, ?_⟩
  · intro d hd
    rw [hbody, findPlainBody_eq, hd]
    simp
  · intro hnone d hd ht
    rw [hbody, findPlainBody_eq, hnone, hd]
    simp [ht]
  · intro hnone hfalsy
    rw [hbody, findPlainBody_eq, hnone]
    cases hd : bodyData payload with
    | some d => simp [hfalsy d hd]
    | none => simp

/-- A concrete message with an `text/html` child, a `text/plain` child
carrying data, and top-level body data. -/
def sampleMultipart : Json :=
  Json.obj [("payload", Json.obj [
    ("parts", Json.arr [
      Json.obj [("mimeType", Json.str "text/html"),
                ("body", Json.obj [("data", Json.str "PGI+aGk8L2I+")])],
      Json.obj [("mimeType", Json.str "text/plain"),
                ("body", Json.obj [("data", Json.str "Y2hpbGQ=")])]]),
    ("body", Json.obj [("data", Json.str "dG9w")])])]

/-- The child list of `sampleMultipart`. -/
def sampleParts : List Json :=
  [Json.obj [("mimeType", Json.str "text/html"),
             ("body", Json.obj [("data", Json.str "PGI+aGk8L2I+")])],
   Json.obj [("mimeType", Json.str "text/plain"),
             ("body", Json.obj [("data", Json.str "Y2hpbGQ=")])]]

/-- Witness for C5: on `sampleMultipart` the extractor returns the
decoded `text/plain` child data `"child"`, not the decoded top-level data
(which would be `"top"`). -/
theorem extract_email_body_prefers_plain_child_witness :
    firstPlainData sampleParts = some (Json.str "Y2hpbGQ=") ∧
    extract_email_body sampleMultipart = decodeData (Json.str "Y2hpbGQ=") ∧
    decodeData (Json.str "Y2hpbGQ=") = "child" ∧
    decodeData (Json.str "dG9w") = "top" :=
  ⟨rfl,
   (extract_email_body_prefers_plain_child sampleMultipart
     (jGetD sampleMultipart "payload" (Json.obj [])) sampleParts rfl rfl).1
     (Json.str "Y2hpbGQ=") rfl,
   rfl, rfl⟩

/-! ### C6 and C7: attachment discovery -/

lemma process_parts_eq_preorder (ps : List Json) :
    process_parts ps = ((preorderList ps).filter isAttachment).map attachmentInfoOf := by
  induction ps using process_parts.induct with
  | case1 => simp [process_parts, preorderList]
  | case2 p ps ih1 ih2 =>
    rw [process_parts, preorderList, ih1, ih2]
    by_cases hp : isAttachment p <;>
      simp [hp, List.filter_append, List.map_append, List.filter_cons]

/-- C6: attachment discovery records exactly the parts with a truthy
(non-empty) filename, at every nesting depth, as attachment descriptors,
in depth-first pre-order traversal sequence over the payload's part
forest. -/
theorem extract_attachments_preorder (message : Json) :
    extract_attachments_info message =
      ((preorderList (childParts (jGetD message "payload" (Json.obj [])))).filter
        isAttachment).map attachmentInfoOf := by
  rw [extract_attachments_info, process_parts_eq_preorder]

/-- A chain of singly-nested parts with a filenamed `text/plain` part at
the bottom: `nestedChain n` places the attachment at depth `n + 1` of the
part tree. -/
def nestedChain : Nat → Json
  | 0 => Json.obj [("filename", Json.str "deep.txt"), ("mimeType", Json.str "text/plain")]
  | n + 1 => Json.obj [("parts", Json.arr [nestedChain n])]

/-- A message whose payload wraps `nestedChain n`. -/
def nestedMessage (n : Nat) : Json :=
  Json.obj [("payload", Json.obj [("parts", Json.arr [nestedChain n])])]

lemma process_parts_nestedChain (n : Nat) :
    process_parts [nestedChain n] =
      [{ filename := Json.str "deep.txt", mime_type := some (Json.str "text/plain"),
         size := Json.num 0, attachment_id := none }] := by
  induction n with
  | zero =>
    simp [process_parts, nestedChain, childParts, jGet, isAttachment, Json.truthy,
      attachmentInfoOf, jGetD]
  | succ n ih =>
    rw [process_parts]
    have h1 : isAttachment (nestedChain (n + 1)) = false := by
      simp [nestedChain, isAttachment, jGet]
    have h2 : childParts (nestedChain (n + 1)) = [nestedChain n] := by
      simp [nestedChain, childParts, jGet]
    rw [h1, h2, ih]
    simp [process_parts]

/-- C7 counterexample: on a part tree of depth 71 — far past any cap of
64 — the traversal does **not** stop or treat the input as malformed: it
recurses to the bottom and returns the depth-71 attachment descriptor. -/
theorem attachments_no_depth_cap_counterexample :
    extract_attachments_info (nestedMessage 70) =
      [{ filename := Json.str "deep.txt", mime_type := some (Json.str "text/plain"),
         size := Json.num 0, attachment_id := none }] := by
  have h : childParts (jGetD (nestedMessage 70) "payload" (Json.obj [])) =
      [nestedChain 70] := by
    simp [nestedMessage, childParts, jGet, jGetD]
  rw [extract_attachments_info, h, process_parts_nestedChain]

/-- C7 (amended): the attachment-discovery traversal has **no** depth
cap: for every nesting depth `n` it recurses to the bottom of
`nestedMessage n` and records the single attachment found there.  (The
only depth bound in practice is the Python interpreter's own recursion
limit, which is not a deliberate guard in this code.) -/
theorem attachments_unbounded_depth (n : Nat) :
    extract_attachments_info (nestedMessage n) =
      [{ filename := Json.str "deep.txt", mime_type := some (Json.str "text/plain"),
         size := Json.num 0, attachment_id := none }] := by
  have h : childParts (jGetD (nestedMessage n) "payload" (Json.obj [])) =
      [nestedChain n] := by
    simp [nestedMessage, childParts, jGet, jGetD]
  rw [extract_attachments_info, h, process_parts_nestedChain]

/-! ### C8: outbound send request -/

lemma raw_message_eq (p : SendEmailInput) :
    joinSep "\n" (message_lines p) =
      "To: " ++ p.«to» ++ "\n" ++ "Subject: " ++ p.subject ++
      (match p.cc with
       | some c => if c != "" then "\n" ++ "Cc: " ++ c else ""
       | none => "") ++
      (match p.bcc with
       | some b => if b != "" then "\n" ++ "Bcc: " ++ b else ""
       | none => "") ++
      "\n" ++ "\n" ++ p.body := by
  rcases p with ⟨pto, psubject, pbody, pcc, pbcc, ptid⟩
  cases pcc with
  | none =>
    cases pbcc with
    | none =>
      simp [message_lines, joinSep, String.append_assoc]
      rfl
    | some b =>
      by_cases hb : b = "" <;>
        simp [message_lines, joinSep, hb, bne_iff_ne, String.append_assoc] <;> rfl
  | some c =>
    cases pbcc with
    | none =>
      by_cases hc : c = "" <;>
        simp [message_lines, joinSep, hc, bne_iff_ne, String.append_assoc] <;> rfl
    | some b =>
      by_cases hc : c = "" <;> by_cases hb : b = "" <;>
        simp [message_lines, joinSep, hc, hb, bne_iff_ne, String.append_assoc] <;> rfl

/-- C8 (amended): for every send input, the outbound request's `raw`
field is the base64url encoding of the UTF-8 bytes of the header block
(`To`, `Subject`, then any truthy `Cc`/`Bcc` lines) followed by a blank
line and the body; and the structured payload carries `threadId: t`
exactly when `thread_id` is supplied with a **non-empty** value — a
supplied empty string is treated as absent (Python truthiness). -/
theorem gmail_send_request_spec (p : SendEmailInput) :
    (jGet (gmail_send_request_body p) "raw" =
      some (Json.str (b64urlEncode (utf8Encode (
        "To: " ++ p.«to» ++ "\n" ++ "Subject: " ++ p.subject ++
        (match p.cc with
         | some c => if c != "" then "\n" ++ "Cc: " ++ c else ""
         | none => "") ++
        (match p.bcc with
         | some b => if b != "" then "\n" ++ "Bcc: " ++ b else ""
         | none => "") ++
        "\n" ++ "\n" ++ p.body))))) ∧
    (∀ t, p.thread_id = some t → t ≠ "" →
      jGet (gmail_send_request_body p) "threadId" = some (Json.str t)) ∧
    ((p.thread_id = none ∨ p.thread_id = some "") →
      jGet (gmail_send_request_body p) "threadId" = none) := by
  refine ⟨?_, ?_, ?_⟩
  · rw [gmail_send_request_body]
    simp [jGet, encoded_message, raw_message_eq]
  · intro t ht hne
    rw [gmail_send_request_body, ht]
    simp [jGet, bne_iff_ne, hne]
  · intro h
    rcases h with h | h <;> rw [gmail_send_request_body, h] <;> simp [jGet]

/-- C8 counterexample: with `thread_id` supplied as the empty string, the
structured payload contains **no** `threadId` field, contradicting
"includes `threadId` exactly when `thread_id` is supplied". -/
theorem gmail_send_threadId_empty_counterexample :
    (({ «to» := "a@example.com", subject := "Re: X", body := "ok",
        thread_id := some "" } : SendEmailInput).thread_id = some "") ∧
    jGet (gmail_send_request_body
      { «to» := "a@example.com", subject := "Re: X", body := "ok",
        thread_id := some "" }) "threadId" = none :=
  ⟨rfl, rfl⟩

/-- Witness for C8 on the claim's example input: the `raw` field is the
base64url encoding of `"To: a@example.com\nSubject: Re: X\n\nok"` and the
payload carries `threadId: "T1"`. -/
theorem gmail_send_request_spec_witness :
    jGet (gmail_send_request_body
      { «to» := "a@example.com", subject := "Re: X", body := "ok",
        thread_id := some "T1" }) "raw" =
      some (Json.str (b64urlEncode (utf8Encode "To: a@example.com\nSubject: Re: X\n\nok"))) ∧
    jGet (gmail_send_request_body
      { «to» := "a@example.com", subject := "Re: X", body := "ok",
        thread_id := some "T1" }) "threadId" = some (Json.str "T1") := by
  constructor
  · exact ((gmail_send_request_spec
      { «to» := "a@example.com", subject := "Re: X", body := "ok",
        thread_id := some "T1" }).1).trans (by rfl)
  · exact (gmail_send_request_spec
      { «to» := "a@example.com", subject := "Re: X", body := "ok",
        thread_id := some "T1" }).2.1 "T1" rfl (by decide)

/-! ### C9: attachment text extraction dispatch -/

/-- C9: for any attachment bytes and any MIME type outside the supported
set, the extractor returns the literal placeholder
`"[Unsupported file type: <mime_type>]"`; and on the degradation branches
(missing or failing PDF/DOCX capability) it likewise returns the fixed
placeholder strings — every branch yields a string, never an exception. -/
theorem attachment_unsupported_placeholder (data : List Nat) (mime_type : String)
    (pdf docx : CapResult) :
    (mime_type ≠ "text/plain" → mime_type ≠ "application/pdf" →
      mime_type ≠ "application/vnd.openxmlformats-officedocument.wordprocessingml.document" →
      mime_type ≠ "application/msword" →
      download_attachment_text data mime_type pdf docx =
        "[Unsupported file type: " ++ mime_type ++ "]") ∧
    (download_attachment_text data "application/pdf" CapResult.unavailable docx =
      "[PDF text extraction requires PyPDF2 library]") ∧
    (∀ e, download_attachment_text data "application/pdf" (CapResult.err e) docx =
      "[Error extracting PDF text: " ++ e ++ "]") ∧
    (download_attachment_text data "application/msword" pdf CapResult.unavailable =
      "[DOCX text extraction requires python-docx library]") ∧
    (∀ e, download_attachment_text data "application/msword" pdf (CapResult.err e) =
      "[Error extracting DOCX text: " ++ e ++ "]") := by
  refine ⟨?_, ?_, ?_, ?_, ?_⟩
  · intro h1 h2 h3 h4
    simp [download_attachment_text, h1, h2, h3, h4]
  · simp [download_attachment_text]
  · intro e; simp [download_attachment_text]
  · simp [download_attachment_text]
  · intro e; simp [download_attachment_text]

/-- Witness for C9 at the claim's example: `mimeType = "image/png"`
yields exactly `"[Unsupported file type: image/png]"`. -/
theorem attachment_unsupported_placeholder_witness :
    (("image/png" : String) ≠ "text/plain" ∧ ("image/png" : String) ≠ "application/pdf" ∧
     ("image/png" : String) ≠ "application/vnd.openxmlformats-officedocument.wordprocessingml.document" ∧
     ("image/png" : String) ≠ "application/msword") ∧
    download_attachment_text [] "image/png" CapResult.unavailable CapResult.unavailable =
      "[Unsupported file type: image/png]" := by
  refine ⟨⟨by decide, by decide, by decide, by decide⟩, ?_⟩
  exact ((attachment_unsupported_placeholder [] "image/png"
    CapResult.unavailable CapResult.unavailable).1
    (by decide) (by decide) (by decide) (by decide)).trans (by rfl)

/-! ### C10: empty search results -/

/-- C10: whenever the provider's list response carries no messages (the
`messages` entry is absent or falsy), `gmail_search_messages` returns
exactly the fixed string, for every requested response format and
independently of whatever the oracle would answer for any detail fetch. -/
theorem search_empty_results_message (params : GmailSearchInput)
    (oracle : String → Except PyErr Json) (resp : Json)
    (h1 : oracle "/users/me/messages" = Except.ok resp)
    (h2 : (jGetD resp "messages" (Json.arr [])).truthy = false) :
    gmail_search_messages params oracle =
      "No messages found matching the search query." := by
  rw [gmail_search_messages]
  have hbody : searchBody params oracle =
      Except.ok "No messages found matching the search query." := by
    rw [searchBody]
    simp [h1, h2, Bind.bind, Except.bind, Pure.pure, Except.pure]
  rw [hbody]

/-- Witness for C10: with a provider returning an empty object, both the
markdown and the json format request produce the fixed string. -/
theorem search_empty_results_message_witness :
    (((fun _ => Except.ok (Json.obj [])) : String → Except PyErr Json) "/users/me/messages" =
      Except.ok (Json.obj []) ∧
     (jGetD (Json.obj []) "messages" (Json.arr [])).truthy = false) ∧
    gmail_search_messages { query := "is:unread" }
      (fun _ => Except.ok (Json.obj [])) =
      "No messages found matching the search query." ∧
    gmail_search_messages { query := "is:unread", response_format := ResponseFormat.json }
      (fun _ => Except.ok (Json.obj [])) =
      "No messages found matching the search query." :=
  ⟨⟨rfl, rfl⟩,
   search_empty_results_message { query := "is:unread" } _ (Json.obj []) rfl rfl,
   search_empty_results_message { query := "is:unread", response_format := ResponseFormat.json }
     _ (Json.obj []) rfl rfl⟩

/-! ### C3: the tool boundary always returns a string -/

/-- C3: for every input and every provider behaviour — including a raised
`httpx.HTTPStatusError` (`ProviderError`) or any other exception
(`TransportError`, decode errors, missing keys) anywhere inside the tool
body — the cited tool operations return a string: success passes the
rendered document through, and every raised error is converted at the
boundary into the corresponding diagnostic string, never re-raised. -/
theorem tool_boundary_returns_string :
    (∀ (params : GmailSearchInput) (oracle : String → Except PyErr Json),
      (∃ s, searchBody params oracle = Except.ok s ∧
        gmail_search_messages params oracle = s) ∨
      (∃ e, searchBody params oracle = Except.error (PyErr.httpStatusError e) ∧
        gmail_search_messages params oracle =
          "Error searching Gmail: " ++ e ++ ". Please check your query syntax and try again.") ∨
      (∃ e, searchBody params oracle = Except.error (PyErr.otherError e) ∧
        gmail_search_messages params oracle = "Unexpected error: " ++ e)) ∧
    (∀ (params : GetEmailInput) (oracle : String → Except PyErr Json),
      (∃ s, getMessageBody params oracle = Except.ok s ∧
        gmail_get_message params oracle = s) ∨
      (∃ e, getMessageBody params oracle = Except.error (PyErr.httpStatusError e) ∧
        gmail_get_message params oracle =
          "Error retrieving message: " ++ e ++ ". Please verify the message ID is correct.") ∨
      (∃ e, getMessageBody params oracle = Except.error (PyErr.otherError e) ∧
        gmail_get_message params oracle = "Unexpected error: " ++ e)) := by
  constructor
  · intro params oracle
    cases h : searchBody params oracle with
    | ok s => exact Or.inl ⟨s, rfl, by rw [gmail_search_messages, h]⟩
    | error e =>
      cases e with
      | httpStatusError m =>
        exact Or.inr (Or.inl ⟨m, rfl, by rw [gmail_search_messages, h]⟩)
      | otherError m =>
        exact Or.inr (Or.inr ⟨m, rfl, by rw [gmail_search_messages, h]⟩)
  · intro params oracle
    cases h : getMessageBody params oracle with
    | ok s => exact Or.inl ⟨s, rfl, by rw [gmail_get_message, h]⟩
    | error e =>
      cases e with
      | httpStatusError m =>
        exact Or.inr (Or.inl ⟨m, rfl, by rw [gmail_get_message, h]⟩)
      | otherError m =>
        exact Or.inr (Or.inr ⟨m, rfl, by rw [gmail_get_message, h]⟩)
